import Mathlib

/-!
Verification development for the KyBook3Sync repository (cal2ky3.py).

The Python source is shallowly embedded below.  Conventions used throughout:

* Python strings are Lean `String`; Python string falsiness is the test
  against `""`.
* Python 2 `/` on two ints is floor division; it is embedded as `Nat`
  division.  Float arithmetic (`float(x)`, true division) is embedded over
  `ℚ`, and Python's `int()` truncation of a nonnegative float is `Int.floor`
  followed by `Int.toNat`.
* SQLite tables are lists of row structures; a scalar subquery
  `(SELECT bid FROM books WHERE md5 = ?)` is `List.find?` (first matching
  row, `none` for SQL NULL).
* `LIKE` with a wildcard-free operand is case-insensitive equality.
* The HTTP transport is an oracle function argument; an attempt that raises
  a (transport-level) exception is `none` / `Except.error`.
-/

set_option linter.unusedVariables false

/-! ## Constants (cal2ky3.py lines 50-52) -/

def THUMB_WIDTH : Nat := 74

def THUMB_HEIGHT : Nat := 105

/-- The `EBOOK_SCHEMES` dict, as an association list. -/
def EBOOK_SCHEMES : List (String × String) :=
  [("isbn", "10"), ("amazon", "15"), ("asin", "15"), ("oclc", "12")]

/-- `EBOOK_SCHEMES.get(scheme) or '0'` (line 632): dictionary lookup with the
Python `or` fallback, which also replaces an empty-string hit by `"0"`. -/
def scheme_code (scheme : String) : String :=
  match EBOOK_SCHEMES.lookup scheme with
  | some v => if v == "" then "0" else v
  | none => "0"

/-! ## KyBookDB._remove_html_markup (lines 676-696)

The scanner loop, working on the character list; the accumulated `out`
string is the returned list (characters are appended in input order). -/

def remove_html_aux : List Char → Bool → Bool → List Char
  | [], _, _ => []
  | c :: rest, tag, quote =>
    if c == '<' && !quote then remove_html_aux rest true quote
    else if c == '>' && !quote then remove_html_aux rest false quote
    else if (c == Char.ofNat 34 || c == Char.ofNat 39) && tag then
      -- 34 and 39 are the double-quote and single-quote characters
      remove_html_aux rest tag (!quote)
    else if !tag then c :: remove_html_aux rest tag quote
    else remove_html_aux rest tag quote

/-- `KyBookDB._remove_html_markup`: `if not string: return ''`, then the
character scan starting with `tag = quote = False` and `out = ''`. -/
def remove_html_markup (s : String) : String :=
  if s.isEmpty then "" else String.mk (remove_html_aux s.data false false)

/-! ## Python string primitives

Character-list implementations of the Python slice `s[0:n]` and
`s.lower()` (the repository's strings are ASCII, where `Char.toLower`
agrees with Python). -/

def py_take (n : Nat) (s : String) : String := String.mk (s.data.take n)

def py_lower (s : String) : String := String.mk (s.data.map Char.toLower)

/-! ## CalibreDB.get_metadata, language normalization (lines 246-250)

`if 'language' in cal_datum['languages']: cal_datum['language'] =
cal_datum['languages'][0][0:2].lower() else: ''` — note that the condition
is membership of the literal string `'language'` in the languages list. -/

def get_metadata_language (languages : List String) : String :=
  if languages.contains "language" then
    py_lower (py_take 2 (languages.headD ""))
  else ""

/-- The language derivation as the spec's words describe it (first listed
language truncated to two lowercased characters, empty if none); kept for
comparison with `get_metadata_language` above. -/
def spec_language (languages : List String) : String :=
  match languages with
  | [] => ""
  | l :: _ => py_lower (py_take 2 l)

/-! ## KyBookDB._reduce_image_size (lines 658-674) and the size part of
KyBookDB._get_thumb (lines 509-514)

`height / width` on the first line of the body is Python 2 integer
division (the module has no `from __future__ import division`), so it is
`Nat` division; the float literal `1.418918918918919` is the rational
1418918918918919 / 10^15; `int(float * float)` is floor-to-Nat. -/

def reduce_image_size (w h thumb_height thumb_width : Nat) : Nat × Nat :=
  if ((h / w : Nat) : ℚ) > (1418918918918919 : ℚ) / 1000000000000000 then
    let rh := thumb_height
    let red : ℚ := (rh : ℚ) / (h : ℚ)
    ((((w : ℚ) * red).floor).toNat, rh)
  else
    let rw := thumb_width
    let red : ℚ := (rw : ℚ) / (w : ℚ)
    (rw, (((h : ℚ) * red).floor).toNat)

/-- The size reduction performed by `_get_thumb`: reduce only when a
dimension exceeds the bounding box, otherwise keep the image as is. -/
def get_thumb_size (w h : Nat) : Nat × Nat :=
  if THUMB_WIDTH < w ∨ THUMB_HEIGHT < h then
    reduce_image_size w h THUMB_HEIGHT THUMB_WIDTH
  else (w, h)

/-- `aspectratio = reduced_image.size[1] / (reduced_image.size[0] * 1.0)`:
height over width of the reduced image, as a rational. -/
def get_thumb_aspect (w h : Nat) : ℚ :=
  ((get_thumb_size w h).2 : ℚ) / ((get_thumb_size w h).1 : ℚ)

/-! ## The KyBook 3 destination database (class KyBookDB)

Row types.  Columns that the embedded operations never read or write are
collapsed into a single opaque `rest` field so that "row unchanged" is
meaningful.  Field renamings forced by Lean-side naming constraints:
the metadata columns `annotation` and `aspectratio` are called `annot`
and `aspect`, and `timestamp` columns are called `stamp`. -/

structure LookupRow where
  /-- the integer primary key column (`aid` / `pid` / `sid` / `qid` / `eid`) -/
  id : Nat
  /-- the column named by `Table.namecol`, the one matched by the upsert's
  `LIKE` subquery: `name` for authors, `value` for ebookids, the singular
  table name otherwise -/
  key : String
  /-- the companion column: `namekey` for authors (filled with the sort
  key), `scheme` for ebookids; unused (empty) for the other tables -/
  extra : String
  stamp : String
deriving DecidableEq, Repr

structure LinkRow where
  bid : Nat
  xid : Nat
  /-- only the `books_sequences` link table has this column -/
  seqnumber : Option Int
deriving DecidableEq, Repr

structure BookRow where
  bid : Nat
  md5 : String
  rest : String
deriving DecidableEq, Repr

structure MetadataRow where
  bid : Nat
  title : String
  published : String
  language : String
  annot : String
  thumbnail : String
  aspect : String
  coverhash : Option String
  rest : String
deriving DecidableEq, Repr

structure ReviewRow where
  /-- `none` models SQL NULL (the insert's bid subquery can yield NULL) -/
  bid : Option Nat
  rating : Nat
  stamp : String
deriving DecidableEq, Repr

structure KyState where
  metadata : List MetadataRow
  books : List BookRow
  reviews : List ReviewRow
  authors : List LookupRow
  publishers : List LookupRow
  subjects : List LookupRow
  sequences : List LookupRow
  ebookids : List LookupRow
  books_authors : List LinkRow
  books_publishers : List LinkRow
  books_subjects : List LinkRow
  books_sequences : List LinkRow
  books_ebookids : List LinkRow
deriving DecidableEq, Repr

/-! ## The normalized Calibre record (plugin-supplied `cal_datum`)

The raw fields a pre-materialized record carries; `CalibreDB.get_metadata`
derives `authors`/`sequences`/`subjects`/`ebookids`/`language`/`publishers`
from them (lines 236-253), which the update model below inlines.  The
`pubdate` is kept as its string rendering: both branches of lines 391-397
end with the first 10 characters of the date's string form.  `rating` is a
number with Python falsiness `0`; `series_index` is `none` when absent. -/

structure CalDatum where
  id : Nat
  title : String
  pubdate : String
  comments : String
  author_sort_map : List (String × String)
  series : String
  series_index : Option Int
  tags : List String
  identifiers : List (String × String)
  languages : List String
  publisher : String
  rating : Nat
deriving DecidableEq, Repr

/-- `LIKE` with a wildcard-free operand: case-insensitive equality. -/
def likeMatch (col pat : String) : Bool := py_lower col == py_lower pat

/-- `(SELECT bid FROM books WHERE md5 = ?)`: first matching row's bid, or
SQL NULL. -/
def find_bid (books : List BookRow) (md5 : String) : Option Nat :=
  (books.find? (fun b => b.md5 == md5)).map (fun b => b.bid)

/-- The `UPDATE metadata SET ... WHERE bid = (SELECT bid FROM books WHERE
md5 = ?)` statement (lines 375-386): with a NULL subquery no row satisfies
`bid = NULL`, so nothing changes. -/
def update_metadata_rows (rows : List MetadataRow) (obid : Option Nat)
    (title published language annot thumb aspect : String) :
    List MetadataRow :=
  match obid with
  | none => rows
  | some bid =>
    rows.map (fun m =>
      if m.bid == bid then
        { m with title := title, published := published, language := language,
                 annot := annot, thumbnail := thumb, aspect := aspect,
                 coverhash := none }
      else m)

/-- `DELETE from books_{t} WHERE bid = (SELECT bid FROM books WHERE
md5 = ?)` (lines 527-528). -/
def del_book_links (links : List LinkRow) (obid : Option Nat) :
    List LinkRow :=
  match obid with
  | none => links
  | some bid => links.filter (fun l => ¬ (l.bid == bid))

/-- `DELETE from reviews WHERE bid = (SELECT bid FROM books WHERE md5 = ?)`
(lines 541-542); a NULL stored bid never satisfies `bid = <value>`. -/
def del_book_reviews (rs : List ReviewRow) (obid : Option Nat) :
    List ReviewRow :=
  match obid with
  | none => rs
  | some bid => rs.filter (fun r => ¬ (r.bid == some bid))

/-- SQLite's next automatically assigned INTEGER PRIMARY KEY:
max existing id + 1. -/
def fresh_id (tbl : List LookupRow) : Nat :=
  (tbl.map (fun r => r.id)).foldr max 0 + 1

/-- The lookup-table upsert `INSERT OR REPLACE INTO {t} ({id}, {cols},
timestamp) VALUES((SELECT {id} FROM {t} WHERE {namecol} LIKE ?), ...)`
(lines 580-581): reuse the first `LIKE`-matching row's id (replacing that
row), else insert with a fresh id. -/
def fill_lookups (tbl : List LookupRow) (key extra stamp : String) :
    List LookupRow :=
  match tbl.find? (fun r => likeMatch r.key key) with
  | some r => tbl.map (fun q => if q.id == r.id then ⟨r.id, key, extra, stamp⟩ else q)
  | none => tbl ++ [⟨fresh_id tbl, key, extra, stamp⟩]

/-- The rows produced by `SELECT books.bid, {t}.{id} FROM books, {t} WHERE
books.md5 = ? AND {t}.{namecol} = ?` (lines 584-588): a cross join filtered
on both sides (`=` is exact; collation is switched off during the sync). -/
def link_select (books : List BookRow) (tbl : List LookupRow)
    (md5 key : String) (seqn : Option Int) : List LinkRow :=
  (books.filter (fun b => b.md5 == md5)).flatMap (fun b =>
    (tbl.filter (fun r => r.key == key)).map (fun r => ⟨b.bid, r.id, seqn⟩))

/-- `INSERT OR REPLACE INTO books_{t} ...`: each selected pair replaces an
existing row with the same (bid, xid) composite key, else is appended. -/
def ins_link_pairs (links : List LinkRow) (pairs : List LinkRow) :
    List LinkRow :=
  pairs.foldl (fun acc p =>
    (acc.filter (fun l => ¬ (l.bid == p.bid && l.xid == p.xid))) ++ [p]) links

/-- One pass of the `for lookup_row in lookup_rows` loop of
`_ins_book_to_link_tables` (lines 609-656) over one table: rows are
(name, extra) pairs; a row with a falsy name or extra is skipped
(line 639); otherwise the lookup upsert runs, then the link insert against
the updated lookup table. -/
def process_rows (books : List BookRow) (md5 stamp : String)
    (seqn : Option Int) :
    List (String × String) → List LookupRow × List LinkRow →
    List LookupRow × List LinkRow
  | [], st => st
  | p :: ps, st =>
    if p.1 == "" || p.2 == "" then process_rows books md5 stamp seqn ps st
    else
      let tbl := fill_lookups st.1 p.1 p.2 stamp
      let pairs := link_select books tbl md5 p.1 seqn
      process_rows books md5 stamp seqn ps (tbl, ins_link_pairs st.2 pairs)

/-- `KyBookDB._ins_book_to_link_tables` in plugin mode (lines 567-656),
with the per-table row lists exactly as `get_metadata` (lines 236-253)
prepared them: `authors` = the (name, sort) pairs of `author_sort_map`;
`publishers` = the singleton `[publisher]`; `subjects` = `tags`;
`sequences` = the singleton `[series]` with the truncated `series_index`
as the link row's seqnumber; `ebookids` = the identifier pairs with the
scheme run through `EBOOK_SCHEMES` (value is the name, coded scheme the
companion).  Tables other than the five lookup/link pairs are untouched. -/
def ins_book_to_link_tables (s : KyState) (d : CalDatum)
    (md5 stamp : String) : KyState :=
  let ra := process_rows s.books md5 stamp none d.author_sort_map
              (s.authors, s.books_authors)
  let rp := process_rows s.books md5 stamp none [(d.publisher, "extra")]
              (s.publishers, s.books_publishers)
  let rs := process_rows s.books md5 stamp none
              (d.tags.map (fun t => (t, "extra")))
              (s.subjects, s.books_subjects)
  let rq := process_rows s.books md5 stamp d.series_index
              [(d.series, "extra")] (s.sequences, s.books_sequences)
  let re := process_rows s.books md5 stamp none
              (d.identifiers.map (fun q => (q.2, scheme_code q.1)))
              (s.ebookids, s.books_ebookids)
  { s with authors := ra.1, books_authors := ra.2,
           publishers := rp.1, books_publishers := rp.2,
           subjects := rs.1, books_subjects := rs.2,
           sequences := rq.1, books_sequences := rq.2,
           ebookids := re.1, books_ebookids := re.2 }

/-- `KyBookDB._ins_book_to_reviews` in plugin mode (lines 547-565): return
early on a falsy rating, else `INSERT OR REPLACE INTO reviews (bid,
rating, timestamp) VALUES((SELECT bid FROM books WHERE md5 = ?), ?, ?)`.
A non-NULL bid replaces that book's existing review row (one review row
per book); a NULL bid conflicts with nothing and a fresh row appears. -/
def ins_book_to_reviews (s : KyState) (d : CalDatum) (md5 stamp : String) :
    KyState :=
  if d.rating == 0 then s
  else
    match find_bid s.books md5 with
    | none => { s with reviews := s.reviews ++ [⟨none, d.rating, stamp⟩] }
    | some b =>
      { s with reviews :=
          (s.reviews.filter (fun r => ¬ (r.bid == some b))) ++
            [⟨some b, d.rating, stamp⟩] }

/-- `KyBookDB.update` (lines 371-417) on a plugin-supplied record: the
metadata UPDATE keyed by the md5 subquery, then the link-table and review
deletes, then the re-inserts.  The thumbnail bytes and aspect ratio
computed by `_get_thumb` and the fresh timestamps are passed in as
parameters (`thumb`, `aspect`, `stamp`); `remove_html` is the
constructor's HTML-stripping flag. -/
def update_ky (s : KyState) (d : CalDatum) (md5 : String)
    (remove_html : Bool) (thumb aspect stamp : String) : KyState :=
  let obid := find_bid s.books md5
  let annot := if remove_html then remove_html_markup d.comments
               else d.comments
  let md := update_metadata_rows s.metadata obid d.title
    (py_take 10 d.pubdate) (get_metadata_language d.languages) annot thumb
    aspect
  let s1 := { s with metadata := md }
  let s2 := { s1 with
      books_authors := del_book_links s1.books_authors obid,
      books_publishers := del_book_links s1.books_publishers obid,
      books_subjects := del_book_links s1.books_subjects obid,
      books_sequences := del_book_links s1.books_sequences obid,
      books_ebookids := del_book_links s1.books_ebookids obid }
  let s3 := { s2 with reviews := del_book_reviews s2.reviews obid }
  let s4 := ins_book_to_link_tables s3 d md5 stamp
  ins_book_to_reviews s4 d md5 stamp

/-- `KyBookDB.clean_up` (lines 419-434): for each lookup table,
`DELETE FROM {t} WHERE {id} NOT IN (SELECT {id} FROM books_{t})` — keep
exactly the rows whose id occurs in the corresponding link table. -/
def clean_up (s : KyState) : KyState :=
  { s with
    authors := s.authors.filter
      (fun r => (s.books_authors.map (fun l => l.xid)).contains r.id),
    publishers := s.publishers.filter
      (fun r => (s.books_publishers.map (fun l => l.xid)).contains r.id),
    subjects := s.subjects.filter
      (fun r => (s.books_subjects.map (fun l => l.xid)).contains r.id),
    sequences := s.sequences.filter
      (fun r => (s.books_sequences.map (fun l => l.xid)).contains r.id),
    ebookids := s.ebookids.filter
      (fun r => (s.books_ebookids.map (fun l => l.xid)).contains r.id) }

/-! ## ContentServer (lines 699-922)

The HTTP transport is an oracle.  For `_post_multipart` the oracle maps
the attempt index to `none` (that attempt raises an exception inside the
try block) or `some status` (a response arrives).  For `_http_conn` —
which has no try/except — the transport result is an `Except`, and an
`Except.error` models the exception propagating to the caller. -/

/-- `ContentServer._post_multipart` (lines 732-755).  Returns the response
(if any), the number of POST attempts made, and the number of
`time.sleep(1)` calls executed.  `k` is the index of the next attempt;
`tries == 0` returns `None` before attempting anything; an exception
sleeps one second and recurses with `tries - 1`. -/
def post_multipart (net : Nat → Option Nat) : Nat → Nat →
    Option Nat × Nat × Nat
  | _, 0 => (none, 0, 0)
  | k, t + 1 =>
    match net k with
    | some r => (some r, 1, 0)
    | none =>
      let p := post_multipart net (k + 1) t
      (p.1, p.2.1 + 1, p.2.2 + 1)

/-- The tail of `ContentServer.upload_file` (lines 880-884): the call is
made with the default `tries=5`; a `None` response is logged as a failure,
anything else logs the response.  `true` means the upload POST got a
response. -/
def upload_file_result (net : Nat → Option Nat) : Bool :=
  (post_multipart net 0 5).1.isSome

/-- `ContentServer._http_conn` (lines 717-730): performs the request with
no exception handling, so a transport error propagates to the caller. -/
def http_conn (net : String → String → Except Unit Nat)
    (method url : String) : Except Unit Nat :=
  net method url

/-- `ContentServer.file_exists` (lines 886-893): HEAD on the download
endpoint, `True` exactly on status 200; an `_http_conn` exception
propagates. -/
def file_exists (net : String → String → Except Unit Nat)
    (remote_file : String) : Except Unit Bool :=
  match http_conn net "HEAD" ("/download?path=" ++ remote_file) with
  | Except.ok s => Except.ok (s == 200)
  | Except.error e => Except.error e

/-- `ContentServer.dir_exists` (lines 895-902): HEAD on the list endpoint,
`True` exactly on status 200; an `_http_conn` exception propagates. -/
def dir_exists (net : String → String → Except Unit Nat)
    (remote_dir : String) : Except Unit Bool :=
  match http_conn net "HEAD" ("/list?path=" ++ remote_dir) with
  | Except.ok s => Except.ok (s == 200)
  | Except.error e => Except.error e

/-- `ContentServer.download_file` (lines 844-853) acting on the local
file: `resp` is the (status, body) of the GET; the body is written to the
local path only on status 200, otherwise whatever was there stays
(`none` = no file). -/
def download_file_fs (resp : Nat × String) (loc : Option String) :
    Option String :=
  if resp.1 == 200 then some resp.2 else loc

/-- `ContentServer.download_db_file` (lines 825-837): download, then
`if os.path.isfile(local_path) and os.path.getsize(local_path) > 0` make a
timestamped backup copy and return `True`, else return `False` with no
backup.  Result: (return value, content of the backup copy if one was
made). -/
def download_db_file_fs (resp : Nat × String) (loc : Option String) :
    Bool × Option String :=
  match download_file_fs resp loc with
  | some c => if 0 < c.length then (true, some c) else (false, none)
  | none => (false, none)

/-! ## Concrete data for counterexamples and witnesses -/

/-- A destination state whose tables are all empty (in particular no row
of `books` carries any md5). -/
def emptyKyState : KyState :=
  ⟨[], [], [], [], [], [], [], [], [], [], [], [], []⟩

/-- A record whose only lookup value is the tag "Fiction" and which
carries no rating. -/
def tagOnlyRecord : CalDatum :=
  ⟨7, "A Title", "2020-01-02 00:00:00", "", [], "", none, ["Fiction"],
   [], [], "", 0⟩

/-- A small populated destination state: one book with md5 "zzz", its
metadata row, one subject linked to it, and a review row. -/
def smallKyState : KyState :=
  { metadata := [⟨1, "Old", "2001-01-01", "en", "synopsis", "tb", "1.4",
                  some "ch", "r"⟩],
    books := [⟨1, "zzz", "r"⟩],
    reviews := [⟨some 1, 4, "t0"⟩],
    authors := [], publishers := [],
    subjects := [⟨1, "Old tag", "", "t0"⟩],
    sequences := [], ebookids := [],
    books_authors := [], books_publishers := [],
    books_subjects := [⟨1, 1, none⟩],
    books_sequences := [], books_ebookids := [] }

/-- The §8 scenario's destination state: one pre-existing book row whose
md5 is "h1", all other tables empty. -/
def h1KyState : KyState :=
  { emptyKyState with
    books := [⟨1, "h1", "r"⟩],
    metadata := [⟨1, "", "", "", "", "", "", some "ch", "r"⟩] }

/-- The §8 scenario's record: an isbn identifier 9780441013593. -/
def isbnRecord : CalDatum :=
  ⟨3, "Dune", "1965-08-01 00:00:00", "", [], "", none, [],
   [("isbn", "9780441013593")], [], "", 0⟩

/-- A transport that always fails with an exception. -/
def err_net : String → String → Except Unit Nat :=
  fun _ _ => Except.error ()

/-- A transport oracle whose first two POST attempts raise and whose third
returns status 200. -/
def third_try_net : Nat → Option Nat :=
  fun i => if i == 2 then some 200 else none

/-- A transport oracle on which every POST attempt raises. -/
def all_fail_net : Nat → Option Nat := fun _ => none

/-- A transport that always completes with status 404. -/
def notfound_net : String → String → Except Unit Nat :=
  fun _ _ => Except.ok 404

/-! # Theorems -/

/-! ## Helper lemmas -/

theorem find_bid_eq_none (books : List BookRow) (md5 : String)
    (h : ∀ b ∈ books, b.md5 ≠ md5) : find_bid books md5 = none := by
  unfold find_bid
  have hf : books.find? (fun b => b.md5 == md5) = none :=
    List.find?_eq_none.mpr (fun b hb => by simpa using h b hb)
  rw [hf]
  rfl

theorem link_select_eq_nil (books : List BookRow) (tbl : List LookupRow)
    (md5 key : String) (seqn : Option Int)
    (h : ∀ b ∈ books, b.md5 ≠ md5) :
    link_select books tbl md5 key seqn = [] := by
  unfold link_select
  have hf : books.filter (fun b => b.md5 == md5) = [] :=
    List.filter_eq_nil_iff.mpr (fun b hb => by simpa using h b hb)
  rw [hf]
  rfl

theorem process_rows_links_eq (books : List BookRow) (md5 stamp : String)
    (seqn : Option Int) (rows : List (String × String))
    (st : List LookupRow × List LinkRow)
    (h : ∀ b ∈ books, b.md5 ≠ md5) :
    (process_rows books md5 stamp seqn rows st).2 = st.2 := by
  induction rows generalizing st with
  | nil => rfl
  | cons p ps ih =>
    rw [process_rows]
    split
    · exact ih st
    · show (process_rows books md5 stamp seqn ps
        (_, ins_link_pairs st.2 (link_select books _ md5 p.1 seqn))).2 = st.2
      rw [link_select_eq_nil books _ md5 p.1 seqn h]
      exact ih _

theorem ins_links_frame (s : KyState) (d : CalDatum) (md5 stamp : String) :
    (ins_book_to_link_tables s d md5 stamp).metadata = s.metadata ∧
    (ins_book_to_link_tables s d md5 stamp).books = s.books ∧
    (ins_book_to_link_tables s d md5 stamp).reviews = s.reviews :=
  ⟨rfl, rfl, rfl⟩

theorem ins_links_links_eq (s : KyState) (d : CalDatum) (md5 stamp : String)
    (h : ∀ b ∈ s.books, b.md5 ≠ md5) :
    (ins_book_to_link_tables s d md5 stamp).books_authors = s.books_authors ∧
    (ins_book_to_link_tables s d md5 stamp).books_publishers = s.books_publishers ∧
    (ins_book_to_link_tables s d md5 stamp).books_subjects = s.books_subjects ∧
    (ins_book_to_link_tables s d md5 stamp).books_sequences = s.books_sequences ∧
    (ins_book_to_link_tables s d md5 stamp).books_ebookids = s.books_ebookids := by
  refine ⟨?_, ?_, ?_, ?_, ?_⟩ <;>
    exact process_rows_links_eq s.books md5 stamp _ _ _ h

theorem ins_reviews_frame (s : KyState) (d : CalDatum) (md5 stamp : String) :
    (ins_book_to_reviews s d md5 stamp).metadata = s.metadata ∧
    (ins_book_to_reviews s d md5 stamp).books = s.books ∧
    (ins_book_to_reviews s d md5 stamp).books_authors = s.books_authors ∧
    (ins_book_to_reviews s d md5 stamp).books_publishers = s.books_publishers ∧
    (ins_book_to_reviews s d md5 stamp).books_subjects = s.books_subjects ∧
    (ins_book_to_reviews s d md5 stamp).books_sequences = s.books_sequences ∧
    (ins_book_to_reviews s d md5 stamp).books_ebookids = s.books_ebookids := by
  unfold ins_book_to_reviews
  split
  · exact ⟨rfl, rfl, rfl, rfl, rfl, rfl, rfl⟩
  · cases find_bid s.books md5 <;> exact ⟨rfl, rfl, rfl, rfl, rfl, rfl, rfl⟩

theorem ins_reviews_no_rating (s : KyState) (d : CalDatum)
    (md5 stamp : String) (h : d.rating = 0) :
    (ins_book_to_reviews s d md5 stamp).reviews = s.reviews := by
  unfold ins_book_to_reviews
  rw [if_pos (by simp [h])]

/-! ## Claim C1 -/

/-- Claim C1, corrected.  When the content hash matches no row of the
destination `books` table, `KyBookDB.update` leaves the `metadata` and
`books` tables and every `books_*` link table unchanged, and leaves
`reviews` unchanged whenever the record carries no rating.  (The original
claim is false: the lookup tables are still written — see the
counterexample theorem — because `_ins_book_to_link_tables` performs its
lookup-table INSERT OR REPLACE unconditionally.) -/
theorem update_unmatched_md5_frame (s : KyState) (d : CalDatum)
    (md5 : String) (rh : Bool) (thumb aspect stamp : String)
    (h : ∀ b ∈ s.books, b.md5 ≠ md5) :
    (update_ky s d md5 rh thumb aspect stamp).metadata = s.metadata
  ∧ (update_ky s d md5 rh thumb aspect stamp).books = s.books
  ∧ (update_ky s d md5 rh thumb aspect stamp).books_authors = s.books_authors
  ∧ (update_ky s d md5 rh thumb aspect stamp).books_publishers = s.books_publishers
  ∧ (update_ky s d md5 rh thumb aspect stamp).books_subjects = s.books_subjects
  ∧ (update_ky s d md5 rh thumb aspect stamp).books_sequences = s.books_sequences
  ∧ (update_ky s d md5 rh thumb aspect stamp).books_ebookids = s.books_ebookids
  ∧ (d.rating = 0 →
      (update_ky s d md5 rh thumb aspect stamp).reviews = s.reviews) := by
  have hb : find_bid s.books md5 = none := find_bid_eq_none s.books md5 h
  have hmid : update_ky s d md5 rh thumb aspect stamp
      = ins_book_to_reviews (ins_book_to_link_tables s d md5 stamp) d md5 stamp := by
    unfold update_ky
    rw [hb]
    rfl
  rw [hmid]
  have hbooks : (ins_book_to_link_tables s d md5 stamp).books = s.books :=
    (ins_links_frame s d md5 stamp).2.1
  have hlinks := ins_links_links_eq s d md5 stamp h
  have hfr := ins_reviews_frame (ins_book_to_link_tables s d md5 stamp) d md5 stamp
  refine ⟨?_, ?_, ?_, ?_, ?_, ?_, ?_, ?_⟩
  · rw [hfr.1]; exact (ins_links_frame s d md5 stamp).1
  · rw [hfr.2.1]; exact hbooks
  · rw [hfr.2.2.1]; exact hlinks.1
  · rw [hfr.2.2.2.1]; exact hlinks.2.1
  · rw [hfr.2.2.2.2.1]; exact hlinks.2.2.1
  · rw [hfr.2.2.2.2.2.1]; exact hlinks.2.2.2.1
  · rw [hfr.2.2.2.2.2.2]; exact hlinks.2.2.2.2
  · intro hr
    rw [ins_reviews_no_rating _ d md5 stamp hr]
    exact (ins_links_frame s d md5 stamp).2.2

/-- Claim C1 counterexample: on an empty destination database (so the hash
"abc" matches no `books` row), updating with a record whose only lookup
value is the tag "Fiction" changes the `subjects` lookup table — the
original claim's "leaves every table unchanged" is false. -/
theorem update_unmatched_md5_writes_subjects :
    emptyKyState.books = [] ∧
    (update_ky emptyKyState tagOnlyRecord "abc" false "tb" "0" "t1").subjects
      ≠ emptyKyState.subjects := by
  exact ⟨rfl, by decide⟩

/-- Witness for the corrected claim C1 at a concrete populated state. -/
theorem update_unmatched_md5_frame_witness :
    (smallKyState.books.all (fun b => ¬(b.md5 == "abc"))) = true ∧
    (update_ky smallKyState tagOnlyRecord "abc" false "tb" "0" "t1").metadata
      = smallKyState.metadata ∧
    (update_ky smallKyState tagOnlyRecord "abc" false "tb" "0" "t1").books_subjects
      = smallKyState.books_subjects ∧
    (update_ky smallKyState tagOnlyRecord "abc" false "tb" "0" "t1").reviews
      = smallKyState.reviews :=
  ⟨by decide,
   (update_unmatched_md5_frame smallKyState tagOnlyRecord "abc" false "tb" "0" "t1"
      (by decide)).1,
   (update_unmatched_md5_frame smallKyState tagOnlyRecord "abc" false "tb" "0" "t1"
      (by decide)).2.2.2.2.1,
   (update_unmatched_md5_frame smallKyState tagOnlyRecord "abc" false "tb" "0" "t1"
      (by decide)).2.2.2.2.2.2.2 rfl⟩

/-! ## Claim C2 -/

/-- Claim C2 is wrong about the code, and the code contradicts its own
docstring ("Image must be <= 105 high AND <= 74 wide"): for a 100 x 160
cover, `height / width` is Python 2 integer division, so the comparison
against 105/74 sees `1` and the reduction constrains by width, producing a
74 x 118 thumbnail whose height exceeds the 105-pixel bound even though
160/100 > 105/74. -/
theorem reduce_image_size_bound_violated :
    get_thumb_size 100 160 = (74, 118) ∧
    THUMB_HEIGHT < (get_thumb_size 100 160).2 ∧
    (1418918918918919 : ℚ) / 1000000000000000 < (160 : ℚ) / 100 := by
  have hsz : get_thumb_size 100 160 = (74, 118) := by
    unfold get_thumb_size reduce_image_size THUMB_WIDTH THUMB_HEIGHT
    rw [if_pos (by norm_num), if_neg (by norm_num)]
    show (74, ((((160 : ℕ) : ℚ)) * (((74 : ℕ) : ℚ) / ((100 : ℕ) : ℚ))).floor.toNat)
      = (74, 118)
    have h1 : ((((160 : ℕ) : ℚ)) * (((74 : ℕ) : ℚ) / ((100 : ℕ) : ℚ)))
        = 592 / 5 := by push_cast; norm_num
    have h2 : ((592 / 5 : ℚ)).floor = 118 := by
      have hf : ⌊(592 / 5 : ℚ)⌋ = 118 := by
        rw [Int.floor_eq_iff]
        norm_num
      exact hf
    rw [h1, h2]
    rfl
  refine ⟨hsz, ?_, by norm_num⟩
  rw [hsz]
  decide

/-! ## Claim C5 -/

/-- Claim C5 is right about what the code intends (its own comment says
"We only want the 1st 2 (lc) letters of 1st language") but the code tests
membership of the literal string "language" in the languages list, so a
record with languages ["eng"] gets the empty language, not "en". -/
theorem get_metadata_language_drops_first_language :
    get_metadata_language ["eng"] = "" ∧
    spec_language ["eng"] = "en" ∧
    get_metadata_language [] = "" := by
  exact ⟨rfl, by decide, rfl⟩

/-! ## Claim C7 -/

/-- Claim C7: stripping the HTML markup from the scenario string yields
exactly "Hello world". -/
theorem remove_html_markup_hello_world :
    remove_html_markup "<p>Hello <b class=\"x\">world</b></p>"
      = "Hello world" := by
  decide

/-! ## Claim C10 -/

theorem remove_html_aux_no_angle (l : List Char) (tag quote : Bool)
    (hq : quote = true → tag = true) :
    '<' ∉ remove_html_aux l tag quote ∧ '>' ∉ remove_html_aux l tag quote := by
  induction l generalizing tag quote with
  | nil => simp [remove_html_aux]
  | cons c rest ih =>
    rw [remove_html_aux]
    by_cases h1 : (c == '<' && !quote) = true
    · rw [if_pos h1]
      exact ih true quote (fun _ => rfl)
    · rw [if_neg h1]
      by_cases h2 : (c == '>' && !quote) = true
      · rw [if_pos h2]
        have hqf : quote = false := by
          have := (Bool.and_eq_true _ _).mp h2
          simpa using this.2
        exact ih false quote (fun hc => by rw [hqf] at hc; cases hc)
      · rw [if_neg h2]
        by_cases h3 : ((c == Char.ofNat 34 || c == Char.ofNat 39) && tag) = true
        · rw [if_pos h3]
          have ht : tag = true := ((Bool.and_eq_true _ _).mp h3).2
          exact ih tag (!quote) (fun _ => ht)
        · rw [if_neg h3]
          by_cases h4 : (!tag) = true
          · rw [if_pos h4]
            have htf : tag = false := by simpa using h4
            have hqf : quote = false := by
              cases hqv : quote
              · rfl
              · rw [hq hqv] at htf; cases htf
            have hclt : ¬ (c = '<') := by
              intro hc
              apply h1
              rw [hc, hqf]
              rfl
            have hcgt : ¬ (c = '>') := by
              intro hc
              apply h2
              rw [hc, hqf]
              rfl
            have hrest := ih tag quote hq
            constructor
            · intro hmem
              rcases List.mem_cons.mp hmem with hc | hc
              · exact hclt hc.symm
              · exact hrest.1 hc
            · intro hmem
              rcases List.mem_cons.mp hmem with hc | hc
              · exact hcgt hc.symm
              · exact hrest.2 hc
          · rw [if_neg h4]
            exact ih tag quote hq

/-- Claim C10: for every input string, the output of
`_remove_html_markup` contains no angle-bracket character — the quote
flag is only ever set while inside a tag, so every bracket is consumed by
a state transition rather than emitted. -/
theorem remove_html_markup_no_angle (s : String) :
    '<' ∉ (remove_html_markup s).data ∧ '>' ∉ (remove_html_markup s).data := by
  unfold remove_html_markup
  by_cases h : s.isEmpty
  · rw [if_pos h]
    exact ⟨List.not_mem_nil _, List.not_mem_nil _⟩
  · rw [if_neg h]
    exact remove_html_aux_no_angle s.data false false (fun hc => by cases hc)

/-- Witness for claim C10 at a concrete string with quoted attributes. -/
theorem remove_html_markup_no_angle_witness :
    '<' ∉ (remove_html_markup "<a href=\"x>y\">z</a>").data ∧
    '>' ∉ (remove_html_markup "<a href=\"x>y\">z</a>").data :=
  remove_html_markup_no_angle "<a href=\"x>y\">z</a>"

/-! ## Claim C3 -/

theorem post_multipart_attempts_le (net : Nat → Option Nat) (k t : Nat) :
    (post_multipart net k t).2.1 ≤ t := by
  induction t generalizing k with
  | zero => simp [post_multipart]
  | succ t ih =>
    rw [post_multipart]
    cases hnet : net k with
    | some r => simp
    | none =>
      simpa using Nat.succ_le_succ (ih (k + 1))

theorem post_multipart_none_iff (net : Nat → Option Nat) (k t : Nat) :
    (post_multipart net k t).1 = none ↔ ∀ i, i < t → net (k + i) = none := by
  induction t generalizing k with
  | zero => simp [post_multipart]
  | succ t ih =>
    rw [post_multipart]
    cases hnet : net k with
    | some r =>
      simp only
      constructor
      · intro hcontr
        cases hcontr
      · intro hall
        have h0 := hall 0 (Nat.succ_pos t)
        rw [Nat.add_zero, hnet] at h0
        cases h0
    | none =>
      simp only
      rw [ih (k + 1)]
      constructor
      · intro hall i hi
        cases i with
        | zero => rw [Nat.add_zero]; exact hnet
        | succ j =>
          have := hall j (by omega)
          rw [show k + 1 + j = k + (j + 1) by omega] at this
          exact this
      · intro hall i hi
        have := hall (i + 1) (by omega)
        rw [show k + (i + 1) = k + 1 + i by omega] at this
        exact this

theorem post_multipart_first_success (net : Nat → Option Nat)
    (k t i r : Nat) (hi : i < t) (hr : net (k + i) = some r)
    (hmin : ∀ j, j < i → net (k + j) = none) :
    (post_multipart net k t).1 = some r ∧
    (post_multipart net k t).2.1 = i + 1 := by
  induction i generalizing k t with
  | zero =>
    cases t with
    | zero => omega
    | succ t =>
      rw [Nat.add_zero] at hr
      rw [post_multipart, hr]
      exact ⟨rfl, rfl⟩
  | succ i ih =>
    cases t with
    | zero => omega
    | succ t =>
      have h0 : net k = none := by
        have := hmin 0 (Nat.succ_pos i)
        rwa [Nat.add_zero] at this
      rw [post_multipart, h0]
      have hsub := ih (k + 1) t (by omega)
        (by rw [show k + 1 + i = k + (i + 1) by omega]; exact hr)
        (fun j hj => by
          rw [show k + 1 + j = k + (j + 1) by omega]
          exact hmin (j + 1) (by omega))
      exact ⟨hsub.1, by simp [hsub.2]⟩

theorem post_multipart_attempts_pos (net : Nat → Option Nat) (k t : Nat)
    (h : (post_multipart net k t).1 ≠ none) :
    1 ≤ (post_multipart net k t).2.1 := by
  cases t with
  | zero => exact absurd rfl h
  | succ t =>
    rw [post_multipart]
    cases hnet : net k with
    | some r => simp
    | none => simp

theorem post_multipart_sleeps (net : Nat → Option Nat) (k t : Nat) :
    (post_multipart net k t).2.2 =
      if (post_multipart net k t).1 = none then (post_multipart net k t).2.1
      else (post_multipart net k t).2.1 - 1 := by
  induction t generalizing k with
  | zero => simp [post_multipart]
  | succ t ih =>
    rw [post_multipart]
    cases hnet : net k with
    | some r => simp
    | none =>
      simp only
      by_cases hres : (post_multipart net (k + 1) t).1 = none
      · rw [if_pos hres]
        rw [ih (k + 1), if_pos hres]
      · rw [if_neg hres]
        have hpos := post_multipart_attempts_pos net (k + 1) t hres
        rw [ih (k + 1), if_neg hres]
        omega

/-- Claim C3: with the default budget of 5 tries, `_post_multipart` makes
at most 5 POST attempts; the result is `None` exactly when the first five
attempts all raise; the first successful attempt ends the retrying with
that response; one `time.sleep(1)` ran per raising attempt (i.e. per
attempt when all failed, per attempt but the successful last one
otherwise); `upload_file` sees a plain failed result — never an
exception — exactly in the all-raise case. -/
theorem upload_retry_policy (net : Nat → Option Nat) :
    (post_multipart net 0 5).2.1 ≤ 5
  ∧ ((post_multipart net 0 5).1 = none ↔ ∀ i, i < 5 → net i = none)
  ∧ (∀ i r, i < 5 → net i = some r → (∀ j, j < i → net j = none) →
      (post_multipart net 0 5).1 = some r ∧
      (post_multipart net 0 5).2.1 = i + 1)
  ∧ ((post_multipart net 0 5).2.2 =
      if (post_multipart net 0 5).1 = none then (post_multipart net 0 5).2.1
      else (post_multipart net 0 5).2.1 - 1)
  ∧ (upload_file_result net = false ↔ (post_multipart net 0 5).1 = none) := by
  refine ⟨post_multipart_attempts_le net 0 5, ?_, ?_,
    post_multipart_sleeps net 0 5, ?_⟩
  · simpa using post_multipart_none_iff net 0 5
  · intro i r hi hr hmin
    exact post_multipart_first_success net 0 5 i r hi (by simpa using hr)
      (fun j hj => by simpa using hmin j hj)
  · unfold upload_file_result
    cases (post_multipart net 0 5).1 <;> simp

/-- Witness for claim C3: a transport failing twice then succeeding with
status 200 yields that response after exactly 3 attempts; a transport that
always raises yields `None` and a failed upload result. -/
theorem upload_retry_policy_witness :
    (2 < 5 ∧ third_try_net 2 = some 200) ∧
    (post_multipart third_try_net 0 5).1 = some 200 ∧
    (post_multipart third_try_net 0 5).2.1 = 3 ∧
    (post_multipart all_fail_net 0 5).1 = none ∧
    upload_file_result all_fail_net = false :=
  ⟨⟨by decide, rfl⟩,
   ((upload_retry_policy third_try_net).2.2.1 2 200 (by decide) rfl
      (by decide)).1,
   ((upload_retry_policy third_try_net).2.2.1 2 200 (by decide) rfl
      (by decide)).2,
   ((upload_retry_policy all_fail_net).2.1).mpr (fun i _ => rfl),
   ((upload_retry_policy all_fail_net).2.2.2.2).mpr
     (((upload_retry_policy all_fail_net).2.1).mpr (fun i _ => rfl))⟩

/-! ## Claim C4 -/

/-- Claim C4 counterexample: when the transport raises during the probe,
`file_exists` does not return False — the exception escapes (the
`Except.error` propagates out of the `_http_conn` call, which has no
exception handler). -/
theorem file_exists_error_escapes :
    file_exists err_net "/Books/book.epub" = Except.error () ∧
    dir_exists err_net "/Books" = Except.error () ∧
    (Except.error () : Except Unit Bool) ≠ Except.ok false :=
  ⟨rfl, rfl, fun hcontr => nomatch hcontr⟩

/-- Claim C4, corrected.  On a completed response, `file_exists` and
`dir_exists` return True exactly on status 200 and False on any other
status; but a transport-level error is not converted to False — it
propagates to the caller as an exception. -/
theorem exists_checks_on_response
    (net : String → String → Except Unit Nat) (f d : String) :
    (file_exists net f = Except.ok true ↔
      net "HEAD" ("/download?path=" ++ f) = Except.ok 200)
  ∧ (∀ s, net "HEAD" ("/download?path=" ++ f) = Except.ok s → s ≠ 200 →
      file_exists net f = Except.ok false)
  ∧ (∀ e, net "HEAD" ("/download?path=" ++ f) = Except.error e →
      file_exists net f = Except.error e)
  ∧ (dir_exists net d = Except.ok true ↔
      net "HEAD" ("/list?path=" ++ d) = Except.ok 200)
  ∧ (∀ s, net "HEAD" ("/list?path=" ++ d) = Except.ok s → s ≠ 200 →
      dir_exists net d = Except.ok false)
  ∧ (∀ e, net "HEAD" ("/list?path=" ++ d) = Except.error e →
      dir_exists net d = Except.error e) := by
  unfold file_exists dir_exists http_conn
  refine ⟨?_, ?_, ?_, ?_, ?_, ?_⟩
  · cases hnet : net "HEAD" ("/download?path=" ++ f) with
    | ok s => simp [hnet, beq_iff_eq]
    | error e => simp [hnet]
  · intro s hnet hs
    rw [hnet]
    simp [beq_iff_eq, hs]
  · intro e hnet
    rw [hnet]
  · cases hnet : net "HEAD" ("/list?path=" ++ d) with
    | ok s => simp [hnet, beq_iff_eq]
    | error e => simp [hnet]
  · intro s hnet hs
    rw [hnet]
    simp [beq_iff_eq, hs]
  · intro e hnet
    rw [hnet]

/-- Witness for the corrected claim C4 on a transport answering 404. -/
theorem exists_checks_on_response_witness :
    (notfound_net "HEAD" "/download?path=/a" = Except.ok 404 ∧ 404 ≠ 200) ∧
    file_exists notfound_net "/a" = Except.ok false ∧
    dir_exists notfound_net "/b" = Except.ok false :=
  ⟨⟨rfl, by decide⟩,
   (exists_checks_on_response notfound_net "/a" "/b").2.1 404 rfl (by decide),
   (exists_checks_on_response notfound_net "/a" "/b").2.2.2.2.1 404 rfl
     (by decide)⟩

/-! ## Claim C6 -/

/-- Claim C6: `clean_up` is idempotent — a second run deletes nothing,
because the rows kept by the first run are exactly those whose id occurs
in the corresponding (untouched) link table, and the second run filters
with the same predicate. -/
theorem clean_up_idempotent (s : KyState) :
    clean_up (clean_up s) = clean_up s := by
  simp [clean_up, List.filter_filter]

/-- Witness for claim C6 at a concrete populated state. -/
theorem clean_up_idempotent_witness :
    clean_up (clean_up smallKyState) = clean_up smallKyState :=
  clean_up_idempotent smallKyState

/-! ## Claim C8 -/

/-- Claim C8: the external-identifier scheme map sends isbn to "10",
amazon and asin to "15", oclc to "12" and everything else to "0"; and
syncing a record holding the isbn identifier 9780441013593 into a
destination state whose books table matches the hash produces exactly the
ebookids row (scheme "10", value "9780441013593") with its link row. -/
theorem ebook_scheme_mapping :
    scheme_code "isbn" = "10" ∧ scheme_code "amazon" = "15" ∧
    scheme_code "asin" = "15" ∧ scheme_code "oclc" = "12" ∧
    (∀ sch, sch ∉ ["isbn", "amazon", "asin", "oclc"] →
      scheme_code sch = "0") ∧
    (update_ky h1KyState isbnRecord "h1" false "tb" "0" "t1").ebookids
      = [⟨1, "9780441013593", "10", "t1"⟩] ∧
    (update_ky h1KyState isbnRecord "h1" false "tb" "0" "t1").books_ebookids
      = [⟨1, 1, none⟩] := by
  refine ⟨rfl, rfl, rfl, rfl, ?_, by decide, by decide⟩
  intro sch hmem
  simp only [List.mem_cons, List.not_mem_nil, or_false, not_or] at hmem
  obtain ⟨h1, h2, h3, h4⟩ := hmem
  have b1 : (sch == "isbn") = false := by simp [h1]
  have b2 : (sch == "amazon") = false := by simp [h2]
  have b3 : (sch == "asin") = false := by simp [h3]
  have b4 : (sch == "oclc") = false := by simp [h4]
  simp [scheme_code, EBOOK_SCHEMES, List.lookup, b1, b2, b3, b4]

/-- Witness for claim C8 at the unmapped scheme "doi". -/
theorem ebook_scheme_mapping_witness :
    "doi" ∉ ["isbn", "amazon", "asin", "oclc"] ∧ scheme_code "doi" = "0" :=
  ⟨by decide, ebook_scheme_mapping.2.2.2.2.1 "doi" (by decide)⟩

/-! ## Claim C9 -/

/-- Claim C9: whenever the local file resulting from the download is
missing or empty (in particular when the remote file was zero bytes),
`download_db_file` returns False and creates no timestamped backup
copy. -/
theorem download_db_file_empty (resp : Nat × String) (loc : Option String)
    (h : download_file_fs resp loc = none ∨
         download_file_fs resp loc = some "") :
    download_db_file_fs resp loc = (false, none) := by
  unfold download_db_file_fs
  rcases h with h | h <;> rw [h]
  rfl

/-- Witness for claim C9: a 200 response with an empty body over a missing
local file. -/
theorem download_db_file_empty_witness :
    download_file_fs (200, "") none = some "" ∧
    download_db_file_fs (200, "") none = (false, none) :=
  ⟨rfl, download_db_file_empty (200, "") none (Or.inr rfl)⟩
